import Mathlib

/-!
Shallow embedding of `sfepy/terms/termsBiot.py`: the Biot coupling terms
(`dw_biot`, `de_biot_stress`, `dq_biot_stress`, `dw_biot_th`, `dw_biot_eth`),
their mode dispatch (`set_arg_types`), kernel-argument assembly (`get_fargs`,
`get_fargs_grad`, `get_fargs_div`), evaluation shapes and the interaction with
the data caches.  Numeric arrays at quadrature points are modelled by rational
scalars standing for their entries (the operations the terms perform on them
are elementwise products and sums); `nm.tile` broadcasts a coefficient over
elements and quadrature points and is the identity on the scalar stand-in.
Components whose code lives outside the excerpt (`terms_base.py`, the data
caches, argument resolution) are modelled from the specification and marked so.
-/

namespace SfepyBiot

/-- Argument role tags appearing in `arg_types` declarations. -/
inductive ArgType where
  | ts
  | material
  | material_0
  | material_1
  | virtual
  | state
  | parameter
  | parameter_v
  | parameter_s
deriving DecidableEq, Repr

/-- Evaluation modes declared by the Biot terms (`modes` class attributes). -/
inductive Mode where
  | grad
  | div
  | eval
deriving DecidableEq, Repr

/-- The low-level numerical kernel functions bound by `set_arg_types`. -/
inductive Kernel where
  | dw_biot_grad
  | dw_biot_div
  | d_biot_div
  | de_cauchy_stress
deriving DecidableEq, Repr

/-- The data-cache kinds named in `use_caches` declarations. -/
inductive CacheKind where
  | state_in_volume_qp
  | cauchy_strain
  | exp_history
deriving DecidableEq, Repr

/-- Numeric dtypes of field variables. -/
inductive Dtype where
  | float64
  | complex128
deriving DecidableEq, Repr

/-- A field variable as seen by a term: its data shape
`(n_el, n_qp, dim, n_en, n_c)` (from `get_data_shape`) and its dtype. -/
structure FEVariable where
  n_el : Nat
  n_qp : Nat
  dim : Nat
  n_en : Nat
  n_c : Nat
  dtype : Dtype
deriving DecidableEq, Repr

/-- `self.get_data_shape(var)`: `(n_el, n_qp, dim, n_en, n_c)`. -/
def get_data_shape (v : FEVariable) : Nat × Nat × Nat × Nat × Nat :=
  (v.n_el, v.n_qp, v.dim, v.n_en, v.n_c)

/-- The time stepper handle: current step index and time increment `dt`. -/
structure TS where
  step : Nat
  dt : ℚ
deriving DecidableEq, Repr

/-- Output shapes `(n_elements, n_qp_or_1, n_rows, n_cols)`. -/
abbrev Shape := Nat × Nat × Nat × Nat

/-- `BiotTerm.name`. -/
def BiotTerm.name : String := "dw_biot"

/-- `BiotTerm.arg_types`: the three alternative role signatures. -/
def BiotTerm.arg_types : List (List ArgType) :=
  [[.material, .virtual, .state],
   [.material, .state, .virtual],
   [.material, .parameter_v, .parameter_s]]

/-- `BiotTerm.modes = ('grad', 'div', 'eval')`; alternative `i` of
`arg_types` is associated with mode `modes[i]`. -/
def BiotTerm.modes : List Mode := [.grad, .div, .eval]

/-- `BiotTerm.set_arg_types`: the kernel bound for each mode
(`self.function = {...}[self.mode]`). -/
def BiotTerm.set_arg_types : Mode → Kernel
  | .grad => .dw_biot_grad
  | .div => .dw_biot_div
  | .eval => .d_biot_div

/-- `BiotTHTerm.set_arg_types`: for mode `grad` binds `dw_biot_grad` and the
`state_in_volume_qp` cache declaration, for mode `div` binds `dw_biot_div`
and the `cauchy_strain` cache declaration; mode `eval` is not implemented
(`raise NotImplementedError`). -/
def BiotTHTerm.set_arg_types : Mode → Except Unit (Kernel × CacheKind)
  | .grad => .ok (.dw_biot_grad, .state_in_volume_qp)
  | .div => .ok (.dw_biot_div, .cauchy_strain)
  | .eval => .error ()

/-- `BiotETHTerm.set_arg_types`: same dispatch as the TH term; the
`exp_history` cache declared on the class is kept in addition (the method
updates `self.use_caches`, so the active set is the pair). -/
def BiotETHTerm.set_arg_types : Mode → Except Unit (Kernel × List CacheKind)
  | .grad => .ok (.dw_biot_grad, [.exp_history, .state_in_volume_qp])
  | .div => .ok (.dw_biot_div, [.exp_history, .cauchy_strain])
  | .eval => .error ()

/-- Errors surfaced by argument resolution. -/
inductive TermError where
  | argumentMismatch
deriving DecidableEq, Repr

/-- Modelled from the spec: `resolve_arguments` of the `Term` base class is
not in the excerpt.  "Given named/positional bound values, select the unique
`arg_types` alternative whose role pattern matches the supplied argument
kinds ... Fails with `ArgumentMismatch` if zero or more than one alternative
matches." -/
def resolve_arguments (argTypes : List (List ArgType)) (supplied : List ArgType) :
    Except TermError Nat :=
  match (argTypes.enum.filter (fun p => p.2 = supplied)).map Prod.fst with
  | [i] => .ok i
  | _ => .error .argumentMismatch

/-- `BiotTerm.get_eval_shape`: returns `((n_el, 1, 1, 1), vvar.dtype)`,
ignoring `mode`, `term_mode` and `diff_var`. -/
def BiotTerm.get_eval_shape (vvar : FEVariable)
    (_mode _term_mode _diff_var : Option String) : Shape × Dtype :=
  let s := get_data_shape vvar
  ((s.1, 1, 1, 1), vvar.dtype)

/-- The two field variables bound by `dw_biot` in weak mode. -/
inductive Var where
  | vvar
  | svar
deriving DecidableEq, Repr

/-- The cached quadrature-point quantity names used by `self.get`. -/
inductive QPName where
  | val
  | cauchy_strain
deriving DecidableEq, Repr

/-- `nm.array([0], ndmin=4, dtype=nm.float64)`: the placeholder dummy array
substituted for the quadrature-point quantity in Jacobian mode. -/
def aux0 : ℚ := 0

/-- Result of `BiotTerm.get_fargs`: the weak-mode kernel-argument tuple
`(1.0, val_qp, svg.bf, mat, vvg, fmode)`, the eval-mode tuple
`(1.0, pval, strain, mat, vvg)`, or the `ValueError` carrying the term name
and the offending mode string. -/
inductive BiotFargs where
  | weak (fargs : ℚ × ℚ × ℚ × ℚ × ℚ × Nat)
  | evalTuple (fargs : ℚ × ℚ × ℚ × ℚ × ℚ)
  | valueError (name modeStr : String)
deriving DecidableEq, Repr

/-- `BiotTerm.get_fargs`.  `tmode` is `self.mode`; `get` is the cached
quadrature-point retrieval `self.get(var, name)`; `svg_bf`, `mat`, `vvg` are
the basis/coefficient/mapping arrays; `modeStr` is the evaluation mode
string and `diff_var` the differentiation target. -/
def BiotTerm.get_fargs (tmode : Mode) (get : Var → QPName → ℚ)
    (svg_bf mat vvg : ℚ) (modeStr : String) (diff_var : Option String) :
    BiotFargs :=
  let qp : Var × QPName :=
    if tmode = .grad then (.svar, .val) else (.vvar, .cauchy_strain)
  if modeStr = "weak" then
    match diff_var with
    | none => .weak (1, get qp.1 qp.2, svg_bf, mat, vvg, 0)
    | some _ => .weak (1, aux0, svg_bf, mat, vvg, 1)
  else if modeStr = "eval" then
    .evalTuple (1, get .svar .val, get .vvar .cauchy_strain, mat, vvg)
  else
    .valueError BiotTerm.name modeStr

/-- Result of `BiotStressQTerm.__call__` (`dq_biot_stress`): either the
`StopIteration` skip, or the per-chunk shape together with the sequence of
`(stress, chunk, 0)` triples the generator yields. -/
inductive QStressResult where
  | skip
  | chunks (shape : Shape) (out : List (List ℚ × List Nat × Nat))
deriving DecidableEq, Repr

/-- `BiotStressQTerm.__call__`.  `mat` and `state_qp` are the coefficient
and cached state arrays indexed by element; `chunkList` is the sequence of
element-index chunks produced by `self.char_fun`; each yielded stress is
the elementwise product `mat[chunk] * state_qp[chunk]`. -/
def BiotStressQTerm.call (mat state_qp : Nat → ℚ)
    (chunkList : List (List Nat)) (chunk_size n_qp dim : Nat)
    (diff_var : Option String) : QStressResult :=
  if diff_var.isSome then
    .skip
  else
    let shape : Shape := (chunk_size, n_qp, dim * (dim + 1) / 2, 1)
    .chunks shape
      (chunkList.map (fun ch => (ch.map (fun e => mat e * state_qp e), ch, 0)))

/-- Modelled from the spec: the mode flag computed by `get_shape_grad` /
`get_shape_div` of `CouplingVectorScalarTH` and `CouplingVectorScalar`
(`terms_base.py`, not in the excerpt): "a mode flag distinguishing value
output (fmode=0) from Jacobian output (fmode=1)", i.e. 1 exactly when a
differentiation target is given.  The shape component is passed through the
embeddings below as an explicit `shape` argument. -/
def get_shape_flag (diff_var : Option String) : Nat :=
  if diff_var.isSome then 1 else 0

/-- Result of the TH `get_fargs_*` methods: the `StopIteration` skip, a
fixed kernel-argument tuple `(ts.dt, quantity, bf, mat, vg)` with shape and
mode flag (Jacobian branch), or the `iter_kernel` generator yielding one
indexed tuple per history material (residual branch). -/
inductive THResult where
  | skip
  | fixed (fargs : ℚ × ℚ × ℚ × ℚ × ℚ) (shape : Shape) (flag : Nat)
  | gen (kernels : List (Nat × (ℚ × ℚ × ℚ × ℚ × ℚ))) (shape : Shape)
      (flag : Nat)
deriving DecidableEq, Repr

/-- `BiotGradTH.get_fargs_grad` (`dw_biot_th`, mode grad).  `mats` is the
history material sequence; `cache ii` is the `state_in_volume_qp` cache
retrieval `cache('state', self, ii, ...)` at history index `ii`; tiling of
the coefficient is the identity on the scalar stand-in; `mats.headD 0`
stands for `mats[0]`. -/
def BiotGradTH.get_fargs_grad (ts : TS) (mats : List ℚ) (bf vgr : ℚ)
    (cache : Nat → ℚ) (shape : Shape) (diff_var : Option String) : THResult :=
  let flag := get_shape_flag diff_var
  if ts.step = 0 ∧ flag = 0 then
    .skip
  else if flag = 1 then
    .fixed (ts.dt, aux0, bf, mats.headD 0, vgr) shape flag
  else
    .gen (mats.enum.map (fun p => (p.1, (ts.dt, cache p.1, bf, p.2, vgr))))
      shape flag

/-- `BiotDivTH.get_fargs_div` (`dw_biot_th`, mode div): as the grad variant
but retrieving `cache('strain', self, ii, ...)` from the `cauchy_strain`
cache and using the scalar variable's mapping `vgc`. -/
def BiotDivTH.get_fargs_div (ts : TS) (mats : List ℚ) (bf vgc : ℚ)
    (cache : Nat → ℚ) (shape : Shape) (diff_var : Option String) : THResult :=
  let flag := get_shape_flag diff_var
  if ts.step = 0 ∧ flag = 0 then
    .skip
  else if flag = 1 then
    .fixed (ts.dt, aux0, bf, mats.headD 0, vgc) shape flag
  else
    .gen (mats.enum.map (fun p => (p.1, (ts.dt, cache p.1, bf, p.2, vgc))))
      shape flag

/-- Modelled from the spec: the caches consulted by the ETH terms (the
cache classes are not in the excerpt).  `histAccum` is the `exp_history`
accumulator "as of the previous step"; each primed flag records that the
corresponding cache entry has been computed and stored by a `get` call
("if absent, computes it ..., stores it, and returns it"): `qpPrimed` for
the `state_in_volume_qp` / `cauchy_strain` entry, `incrementPrimed` and
`historyPrimed` for the `exp_history` entries `increment` and `history`;
`get('increment', ..., decay, values)` computes `decay * values`. -/
structure EthCaches where
  histAccum : ℚ
  qpPrimed : Bool
  incrementPrimed : Bool
  historyPrimed : Bool
deriving DecidableEq, Repr

/-- Result of the ETH `get_fargs_*` methods: the `StopIteration` skip or a
kernel-argument tuple `(ts.dt, quantity, bf, mat0, vg)` with shape and mode
flag. -/
inductive ETHResult where
  | skip
  | ok (fargs : ℚ × ℚ × ℚ × ℚ × ℚ) (shape : Shape) (flag : Nat)
deriving DecidableEq, Repr

/-- `BiotGradETH.get_fargs_grad` (`dw_biot_eth`, mode grad).  `vec_qp` is
the value the `state_in_volume_qp` cache computes for the state; the cache
accesses are threaded through `EthCaches` in source order: in the residual
branch the state entry, the `increment` entry (`decay * values` with decay
`mat1`) and the `history` entry are all retrieved — priming them — before
the step-0 `StopIteration` is raised. -/
def BiotGradETH.get_fargs_grad (ts : TS) (mat0 mat1 : ℚ) (bf vgr : ℚ)
    (vec_qp : ℚ) (shape : Shape) (diff_var : Option String) (c : EthCaches) :
    ETHResult × EthCaches :=
  let flag := get_shape_flag diff_var
  match diff_var with
  | none =>
    let c1 := { c with qpPrimed := true }
    let increment := mat1 * vec_qp
    let c2 := { c1 with incrementPrimed := true }
    let history := c2.histAccum
    let c3 := { c2 with historyPrimed := true }
    if ts.step = 0 then (.skip, c3)
    else (.ok (ts.dt, history + increment, bf, mat0, vgr) shape flag, c3)
  | some _ => (.ok (ts.dt, aux0, bf, mat0, vgr) shape flag, c)

/-- `BiotDivETH.get_fargs_div` (`dw_biot_eth`, mode div): as the grad
variant but with the `cauchy_strain` cache value `strain` and the scalar
variable's mapping `vgc`. -/
def BiotDivETH.get_fargs_div (ts : TS) (mat0 mat1 : ℚ) (bf vgc : ℚ)
    (strain : ℚ) (shape : Shape) (diff_var : Option String) (c : EthCaches) :
    ETHResult × EthCaches :=
  let flag := get_shape_flag diff_var
  match diff_var with
  | none =>
    let c1 := { c with qpPrimed := true }
    let increment := mat1 * strain
    let c2 := { c1 with incrementPrimed := true }
    let history := c2.histAccum
    let c3 := { c2 with historyPrimed := true }
    if ts.step = 0 then (.skip, c3)
    else (.ok (ts.dt, history + increment, bf, mat0, vgc) shape flag, c3)
  | some _ => (.ok (ts.dt, aux0, bf, mat0, vgc) shape flag, c)

/-- A concrete cache-retrieval function used to instantiate theorems. -/
def cacheA : Nat → ℚ := fun ii => ii + 10

/-- A second concrete cache-retrieval function. -/
def cacheB : Nat → ℚ := fun ii => ii + 20

end SfepyBiot

namespace SfepyBiot

/-- The `iter_kernel` generator list: length and entries. -/
theorem enum_fargs_spec (mats : List ℚ) (dt bf vg : ℚ) (cache : Nat → ℚ) :
    (mats.enum.map (fun p => (p.1, (dt, cache p.1, bf, p.2, vg)))).length
        = mats.length
    ∧ ∀ i, i < mats.length →
        (mats.enum.map (fun p => (p.1, (dt, cache p.1, bf, p.2, vg)))).getD i
            (0, 0, 0, 0, 0, 0)
          = (i, (dt, cache i, bf, mats.getD i 0, vg)) := by
  constructor
  · simp [List.enum_length]
  · intro i hi
    have hi' : i < (mats.enum.map
        (fun p => (p.1, (dt, cache p.1, bf, p.2, vg)))).length := by
      simp [List.enum_length, hi]
    rw [List.getD_eq_getElem _ _ hi', List.getD_eq_getElem _ _ hi]
    simp [List.getElem_enum]

/-- C2: the mode chosen at construction determines the bound kernel and the
active cache declarations: `dw_biot` binds `dw_biot_grad`/`dw_biot_div`/
`d_biot_div` for modes grad/div/eval; `dw_biot_th` with mode grad binds
`dw_biot_grad` with the `state_in_volume_qp` cache and with mode div binds
`dw_biot_div` with the `cauchy_strain` cache; grad and div bind two
different kernel functions. -/
theorem mode_dispatch_determinism :
    BiotTerm.set_arg_types .grad = .dw_biot_grad
    ∧ BiotTerm.set_arg_types .div = .dw_biot_div
    ∧ BiotTerm.set_arg_types .eval = .d_biot_div
    ∧ BiotTHTerm.set_arg_types .grad = .ok (.dw_biot_grad, .state_in_volume_qp)
    ∧ BiotTHTerm.set_arg_types .div = .ok (.dw_biot_div, .cauchy_strain)
    ∧ BiotTerm.set_arg_types .grad ≠ BiotTerm.set_arg_types .div
    ∧ BiotTHTerm.set_arg_types .grad ≠ BiotTHTerm.set_arg_types .div := by
  refine ⟨rfl, rfl, rfl, rfl, rfl, by decide, ?_⟩
  simp [BiotTHTerm.set_arg_types]

/-- C6: resolving the role pattern `(material, virtual, state)` against
`dw_biot`'s declared alternatives selects alternative 0 uniquely, whose
associated mode is `grad`; a binding with a missing role raises
`ArgumentMismatch`. -/
theorem resolve_biot_arguments :
    resolve_arguments BiotTerm.arg_types [.material, .virtual, .state] = .ok 0
    ∧ BiotTerm.modes.get? 0 = some .grad
    ∧ resolve_arguments BiotTerm.arg_types [.virtual, .state]
        = .error .argumentMismatch := ⟨rfl, rfl, rfl⟩

/-- C8: `dw_biot.get_eval_shape` returns `(n_el, 1, 1, 1)` — one scalar per
element — and the dtype of the virtual variable, for every combination of
the remaining inputs. -/
theorem biot_get_eval_shape (vvar : FEVariable) (m tm dv : Option String) :
    BiotTerm.get_eval_shape vvar m tm dv
      = ((vvar.n_el, 1, 1, 1), vvar.dtype) := rfl

/-- C4: in weak mode, `dw_biot.get_fargs` returns `fmode = 0` with the
cached quadrature-point quantity (the state's value in grad mode, the
vector variable's Cauchy strain otherwise) exactly when `diff_var` is none,
and `fmode = 1` with the placeholder dummy array exactly when `diff_var` is
given. -/
theorem biot_weak_fmode (tmode : Mode) (get : Var → QPName → ℚ)
    (bf mat vvg : ℚ) (diff_var : Option String) :
    (diff_var = none →
      BiotTerm.get_fargs tmode get bf mat vvg "weak" diff_var
        = .weak (1, get (if tmode = .grad then .svar else .vvar)
                   (if tmode = .grad then .val else .cauchy_strain),
                 bf, mat, vvg, 0))
    ∧ (∀ d, diff_var = some d →
      BiotTerm.get_fargs tmode get bf mat vvg "weak" diff_var
        = .weak (1, aux0, bf, mat, vvg, 1)) := by
  constructor
  · rintro rfl
    cases tmode <;> simp [BiotTerm.get_fargs]
  · rintro d rfl
    cases tmode <;> simp [BiotTerm.get_fargs]

theorem biot_weak_fmode_witness :
    ((none : Option String) = none →
      BiotTerm.get_fargs .grad (fun _ _ => 7) 2 3 4 "weak" none
        = .weak (1, (fun (_ : Var) (_ : QPName) => (7 : ℚ))
                   (if Mode.grad = .grad then .svar else .vvar)
                   (if Mode.grad = .grad then .val else .cauchy_strain),
                 2, 3, 4, 0))
    ∧ (∀ d, (none : Option String) = some d →
      BiotTerm.get_fargs .grad (fun _ _ => 7) 2 3 4 "weak" none
        = .weak (1, aux0, 2, 3, 4, 1)) :=
  biot_weak_fmode .grad (fun _ _ => 7) 2 3 4 none

/-- C7: calling `dw_biot.get_fargs` with an evaluation mode that is neither
`"weak"` nor `"eval"` raises a `ValueError` identifying the term name and
the offending mode; it is never the skip outcome. -/
theorem biot_unsupported_mode (tmode : Mode) (get : Var → QPName → ℚ)
    (bf mat vvg : ℚ) (modeStr : String) (diff_var : Option String)
    (hw : modeStr ≠ "weak") (he : modeStr ≠ "eval") :
    BiotTerm.get_fargs tmode get bf mat vvg modeStr diff_var
      = .valueError "dw_biot" modeStr := by
  simp [BiotTerm.get_fargs, hw, he, BiotTerm.name]

theorem biot_unsupported_mode_witness :
    BiotTerm.get_fargs .grad (fun _ _ => 0) 0 0 0 "strange" none
      = .valueError "dw_biot" "strange" :=
  biot_unsupported_mode .grad (fun _ _ => 0) 0 0 0 "strange" none
    (by decide) (by decide)

/-- C10: `dq_biot_stress` never produces a Jacobian contribution: with
`diff_var` given it signals the skip; with `diff_var` none every yielded
chunk value is the elementwise product of the material coefficient and the
cached state at quadrature points restricted to that chunk, with declared
per-chunk shape `(chunk_size, n_qp, dim*(dim+1)/2, 1)`. -/
theorem dq_biot_stress_call (mat state_qp : Nat → ℚ)
    (chunkList : List (List Nat)) (chunk_size n_qp dim : Nat) :
    (∀ d, BiotStressQTerm.call mat state_qp chunkList chunk_size n_qp dim
        (some d) = .skip)
    ∧ BiotStressQTerm.call mat state_qp chunkList chunk_size n_qp dim none
        = .chunks (chunk_size, n_qp, dim * (dim + 1) / 2, 1)
            (chunkList.map
              (fun ch => (ch.map (fun e => mat e * state_qp e), ch, 0))) := by
  constructor
  · intro d
    simp [BiotStressQTerm.call]
  · simp [BiotStressQTerm.call]

theorem dq_biot_stress_call_witness :
    (∀ d, BiotStressQTerm.call (fun e => (e : ℚ)) (fun e => (e : ℚ) + 1)
        [[0, 1], [2]] 2 3 2 (some d) = .skip)
    ∧ BiotStressQTerm.call (fun e => (e : ℚ)) (fun e => (e : ℚ) + 1)
        [[0, 1], [2]] 2 3 2 none
      = .chunks (2, 3, 2 * (2 + 1) / 2, 1)
          ([[0, 1], [2]].map
            (fun ch => (ch.map (fun e => (e : ℚ) * ((e : ℚ) + 1)), ch, 0))) :=
  dq_biot_stress_call (fun e => (e : ℚ)) (fun e => (e : ℚ) + 1)
    [[0, 1], [2]] 2 3 2

/-- C1: for `dw_biot_th` (grad and div) and `dw_biot_eth` (grad and div),
when the time stepper's step index is 0 and a residual evaluation is
requested (`diff_var` none), `get_fargs` abandons the evaluation with the
`StopIteration` skip: no kernel-argument tuple is returned, and the outcome
is the skip constructor, distinct from an error. -/
theorem step0_residual_skip (ts : TS) (h : ts.step = 0) (mats : List ℚ)
    (bf vgr vgc mat0 mat1 vec strain : ℚ) (cacheS cacheE : Nat → ℚ)
    (shape : Shape) (c : EthCaches) :
    BiotGradTH.get_fargs_grad ts mats bf vgr cacheS shape none = .skip
    ∧ BiotDivTH.get_fargs_div ts mats bf vgc cacheE shape none = .skip
    ∧ (BiotGradETH.get_fargs_grad ts mat0 mat1 bf vgr vec shape none c).1
        = .skip
    ∧ (BiotDivETH.get_fargs_div ts mat0 mat1 bf vgc strain shape none c).1
        = .skip := by
  refine ⟨?_, ?_, ?_, ?_⟩ <;>
    simp [BiotGradTH.get_fargs_grad, BiotDivTH.get_fargs_div,
      BiotGradETH.get_fargs_grad, BiotDivETH.get_fargs_div, get_shape_flag, h]

theorem step0_residual_skip_witness :
    BiotGradTH.get_fargs_grad ⟨0, 1⟩ [2] 3 4 cacheA (1, 1, 1, 1) none
        = .skip
    ∧ BiotDivTH.get_fargs_div ⟨0, 1⟩ [2] 3 5 cacheB (1, 1, 1, 1) none
        = .skip
    ∧ (BiotGradETH.get_fargs_grad ⟨0, 1⟩ 2 6 3 4 7 (1, 1, 1, 1) none
        ⟨9, false, false, false⟩).1 = .skip
    ∧ (BiotDivETH.get_fargs_div ⟨0, 1⟩ 2 6 3 5 8 (1, 1, 1, 1) none
        ⟨9, false, false, false⟩).1 = .skip :=
  step0_residual_skip ⟨0, 1⟩ rfl [2] 3 4 5 2 6 7 8 cacheA cacheB
    (1, 1, 1, 1) ⟨9, false, false, false⟩

/-- C5: for `dw_biot_th` in residual mode (mode flag 0, step index greater
than 0), `get_fargs` returns the generator yielding one indexed
kernel-argument tuple per material of the history sequence, the tuple at
index `ii` carrying the quantity retrieved from the cache with history
index `ii` and the material `mats[ii]`; in Jacobian mode (flag 1) the fixed
tuple uses only the first material of the sequence. -/
theorem th_residual_generator (ts : TS) (h : 0 < ts.step) (mats : List ℚ)
    (bf vgr vgc : ℚ) (cacheS cacheE : Nat → ℚ) (shape : Shape) (d : String) :
    (∃ L, BiotGradTH.get_fargs_grad ts mats bf vgr cacheS shape none
        = .gen L shape 0
      ∧ L.length = mats.length
      ∧ ∀ i, i < mats.length →
          L.getD i (0, 0, 0, 0, 0, 0)
            = (i, (ts.dt, cacheS i, bf, mats.getD i 0, vgr)))
    ∧ (∃ L, BiotDivTH.get_fargs_div ts mats bf vgc cacheE shape none
        = .gen L shape 0
      ∧ L.length = mats.length
      ∧ ∀ i, i < mats.length →
          L.getD i (0, 0, 0, 0, 0, 0)
            = (i, (ts.dt, cacheE i, bf, mats.getD i 0, vgc)))
    ∧ BiotGradTH.get_fargs_grad ts mats bf vgr cacheS shape (some d)
        = .fixed (ts.dt, aux0, bf, mats.headD 0, vgr) shape 1
    ∧ BiotDivTH.get_fargs_div ts mats bf vgc cacheE shape (some d)
        = .fixed (ts.dt, aux0, bf, mats.headD 0, vgc) shape 1 := by
  have hne : ¬ ts.step = 0 := Nat.pos_iff_ne_zero.mp h
  refine ⟨⟨mats.enum.map (fun p => (p.1, (ts.dt, cacheS p.1, bf, p.2, vgr))),
      ?_, (enum_fargs_spec mats ts.dt bf vgr cacheS).1,
      (enum_fargs_spec mats ts.dt bf vgr cacheS).2⟩,
    ⟨mats.enum.map (fun p => (p.1, (ts.dt, cacheE p.1, bf, p.2, vgc))),
      ?_, (enum_fargs_spec mats ts.dt bf vgc cacheE).1,
      (enum_fargs_spec mats ts.dt bf vgc cacheE).2⟩, ?_, ?_⟩
  · simp [BiotGradTH.get_fargs_grad, get_shape_flag, hne]
  · simp [BiotDivTH.get_fargs_div, get_shape_flag, hne]
  · simp [BiotGradTH.get_fargs_grad, get_shape_flag]
  · simp [BiotDivTH.get_fargs_div, get_shape_flag]

theorem th_residual_generator_witness :
    (∃ L, BiotGradTH.get_fargs_grad ⟨1, 1⟩ [2, 3] 4 5 cacheA
        (1, 1, 1, 1) none = .gen L (1, 1, 1, 1) 0
      ∧ L.length = [(2 : ℚ), 3].length
      ∧ ∀ i, i < [(2 : ℚ), 3].length →
          L.getD i (0, 0, 0, 0, 0, 0)
            = (i, (1, cacheA i, 4, [(2 : ℚ), 3].getD i 0, 5)))
    ∧ (∃ L, BiotDivTH.get_fargs_div ⟨1, 1⟩ [2, 3] 4 6 cacheB
        (1, 1, 1, 1) none = .gen L (1, 1, 1, 1) 0
      ∧ L.length = [(2 : ℚ), 3].length
      ∧ ∀ i, i < [(2 : ℚ), 3].length →
          L.getD i (0, 0, 0, 0, 0, 0)
            = (i, (1, cacheB i, 4, [(2 : ℚ), 3].getD i 0, 6)))
    ∧ BiotGradTH.get_fargs_grad ⟨1, 1⟩ [2, 3] 4 5 cacheA
        (1, 1, 1, 1) (some "p")
        = .fixed (1, aux0, 4, [(2 : ℚ), 3].headD 0, 5) (1, 1, 1, 1) 1
    ∧ BiotDivTH.get_fargs_div ⟨1, 1⟩ [2, 3] 4 6 cacheB
        (1, 1, 1, 1) (some "p")
        = .fixed (1, aux0, 4, [(2 : ℚ), 3].headD 0, 6) (1, 1, 1, 1) 1 :=
  th_residual_generator ⟨1, 1⟩ (by decide) [2, 3] 4 5 6 cacheA cacheB
    (1, 1, 1, 1) "p"

/-- C3: for `dw_biot_eth` in residual mode at a step with index greater
than 0, the quantity fed to the kernel equals `history + increment`, where
the increment is the `exp_history` cache's `increment` entry
(`decay * values` with the decay material and the cached state/strain at
quadrature points) and the history is the cache's `history` entry; the
addition is performed by the term in `get_fargs`. -/
theorem eth_history_plus_increment (ts : TS) (h : 0 < ts.step)
    (mat0 mat1 bf vgr vgc vec strain : ℚ) (shape : Shape) (c : EthCaches) :
    (BiotGradETH.get_fargs_grad ts mat0 mat1 bf vgr vec shape none c).1
        = .ok (ts.dt, c.histAccum + mat1 * vec, bf, mat0, vgr) shape 0
    ∧ (BiotDivETH.get_fargs_div ts mat0 mat1 bf vgc strain shape none c).1
        = .ok (ts.dt, c.histAccum + mat1 * strain, bf, mat0, vgc) shape 0 := by
  have hne : ¬ ts.step = 0 := Nat.pos_iff_ne_zero.mp h
  constructor <;>
    simp [BiotGradETH.get_fargs_grad, BiotDivETH.get_fargs_div,
      get_shape_flag, hne]

theorem eth_history_plus_increment_witness :
    (BiotGradETH.get_fargs_grad ⟨1, 1⟩ 1 (1/2) 9 8 4 (1, 1, 1, 1) none
        ⟨1, true, true, true⟩).1
      = .ok (1, (1 : ℚ) + (1/2) * 4, 9, 1, 8) (1, 1, 1, 1) 0
    ∧ (BiotDivETH.get_fargs_div ⟨1, 1⟩ 1 (1/2) 9 7 4 (1, 1, 1, 1) none
        ⟨1, true, true, true⟩).1
      = .ok (1, (1 : ℚ) + (1/2) * 4, 9, 1, 7) (1, 1, 1, 1) 0 :=
  eth_history_plus_increment ⟨1, 1⟩ (by decide) 1 (1/2) 9 8 7 4 4
    (1, 1, 1, 1) ⟨1, true, true, true⟩

/-- C9: for `dw_biot_eth` in residual mode at step 0 the skip is not
side-effect-free: `get_fargs` first retrieves the state/strain quantity
from its cache and the `exp_history` cache's `increment` and `history`
entries — computing and storing them — and only then raises the skip, so
the returned cache state has all three entries primed. -/
theorem eth_step0_primes_caches (ts : TS) (h : ts.step = 0)
    (mat0 mat1 bf vgr vgc vec strain : ℚ) (shape : Shape) (c : EthCaches) :
    (BiotGradETH.get_fargs_grad ts mat0 mat1 bf vgr vec shape none c
        = (.skip, ⟨c.histAccum, true, true, true⟩))
    ∧ (BiotDivETH.get_fargs_div ts mat0 mat1 bf vgc strain shape none c
        = (.skip, ⟨c.histAccum, true, true, true⟩)) := by
  constructor <;>
    simp [BiotGradETH.get_fargs_grad, BiotDivETH.get_fargs_div, h]

theorem eth_step0_primes_caches_witness :
    (BiotGradETH.get_fargs_grad ⟨0, 1⟩ 2 3 4 5 6 (1, 1, 1, 1) none
        ⟨9, false, false, false⟩ = (.skip, ⟨9, true, true, true⟩))
    ∧ (BiotDivETH.get_fargs_div ⟨0, 1⟩ 2 3 4 5 6 (1, 1, 1, 1) none
        ⟨9, false, false, false⟩ = (.skip, ⟨9, true, true, true⟩)) :=
  eth_step0_primes_caches ⟨0, 1⟩ rfl 2 3 4 5 5 6 6 (1, 1, 1, 1)
    ⟨9, false, false, false⟩

end SfepyBiot
